import Mathlib

/-!
Shallow embedding of main.py of the Spotify Artist Explorer desktop
application, and proofs about its token acquisition, album/track fetching,
preview playback and rendering logic.

Network responses, the audio engine and the filesystem are modelled as
explicit inputs (response records, Except-valued operation outcomes), so every
function below is the pure core of the corresponding Python function, with the
distinct raise sites of main.py represented as distinct error constructors.
-/

/-- Truthiness of an optional string, as Python evaluates it in a condition:
None and the empty string are falsy, every other string is truthy. -/
def strTruthy : Option String → Bool
  | none => false
  | some s => s != ""

/-- A response from the token endpoint: status code, body text, and the JSON
object of the body as string key/value pairs. -/
structure TokenResponse where
  status_code : Nat
  text : String
  json : List (String × String)
deriving DecidableEq, Repr

/-- Python dict subscript lookup d[k]: none models the missing-key case in
which the subscript raises KeyError. -/
def jsonLookup (kvs : List (String × String)) (k : String) : Option String :=
  (kvs.find? (fun kv => kv.1 == k)).map (fun kv => kv.2)

/-- The distinct raise sites of main.py: the missing-credential RuntimeError of
get_token line 34 (the ConfigError of the design taxonomy), the non-200 token
RuntimeError of line 47 carrying status and body text (AuthError), and the
KeyError a dict subscript raises when the key is missing. -/
inductive PyError where
  | configError
  | authError (status : Nat) (body : String)
  | keyError (key : String)
deriving DecidableEq, Repr

/-- The credential configuration read from the environment at startup; os.getenv
returns None when a variable is unset. -/
structure Config where
  CLIENT_ID : Option String
  CLIENT_SECRET : Option String
deriving DecidableEq, Repr

/-- get_token of main.py lines 32-48. The first component is the result; the
second component records whether the HTTP POST to the token endpoint was
issued (the credential check happens before the request is built). -/
def get_token (cfg : Config) (resp : TokenResponse) : Except PyError String × Bool :=
  if !strTruthy cfg.CLIENT_ID || !strTruthy cfg.CLIENT_SECRET then
    (Except.error PyError.configError, false)
  else if resp.status_code != 200 then
    (Except.error (PyError.authError resp.status_code resp.text), true)
  else
    match jsonLookup resp.json "access_token" with
    | some t => (Except.ok t, true)
    | none => (Except.error (PyError.keyError "access_token"), true)

/-- The query parameters of a GET to the albums endpoint, as built by
get_artist_albums of main.py lines 73-79. -/
structure AlbumsParams where
  include_groups : String
  limit : Nat
  market : String
deriving DecidableEq, Repr

/-- get_artist_albums of main.py builds these fixed parameters around the
caller-supplied limit. -/
def get_artist_albums_params (limit : Nat) : AlbumsParams :=
  { include_groups := "album,single,compilation", limit := limit, market := "US" }

/-- The default value of the limit parameter of get_artist_albums (line 73). -/
def albums_limit_default : Nat := 10

/-- The single albums fetch issued by the application: line 367 calls
get_artist_albums with limit=12. -/
def app_albums_fetch_params : AlbumsParams := get_artist_albums_params 12

/-- The mutable state of a PreviewPlayer (main.py lines 89-93). -/
structure PlayerState where
  initialized : Bool
  current_file : Option String
  is_playing : Bool
deriving DecidableEq, Repr

/-- PreviewPlayer constructor state (lines 90-93). -/
def PreviewPlayer.new : PlayerState :=
  { initialized := false, current_file := none, is_playing := false }

/-- PreviewPlayer.stop, main.py lines 100-105: returns immediately when the
engine is uninitialized, otherwise halts playback and records is_playing as
false; the current temp file is never touched. -/
def PlayerState.stop (s : PlayerState) : PlayerState :=
  if s.initialized then { s with is_playing := false } else s

/-- A response of the preview download GET (only the status matters to the
worker control flow). -/
structure DownloadResponse where
  status_code : Nat
deriving DecidableEq, Repr

/-- Outcomes of the external operations the play worker performs, supplied as
an explicit environment: an Except.error carries the Python exception
description str(e) that operation would raise. -/
structure PlayEnv where
  mixer_init : Except String Unit
  download : Except String DownloadResponse
  write_temp : Except String String
  music_load : Except String Unit
  music_play : Except String Unit

/-- The message of the RuntimeError raised at main.py line 115 for a non-200
preview download status. -/
def previewDownloadErrorMsg (status : Nat) : String :=
  "Preview download error [" ++ toString status ++ "]"

/-- The try-block body of the worker inside PreviewPlayer.play_from_url
(main.py lines 110-125), with the self mutations threaded explicitly: an error
outcome carries the state as already mutated at the point the exception was
raised, paired with the exception description. -/
def play_worker_body (env : PlayEnv) (s : PlayerState) :
    Except (PlayerState × String) PlayerState :=
  match (if s.initialized then Except.ok s
         else
           match env.mixer_init with
           | Except.ok _ => Except.ok { s with initialized := true }
           | Except.error m => Except.error (s, m)) with
  | Except.error e => Except.error e
  | Except.ok s1 =>
    match env.download with
    | Except.error m => Except.error (s1, m)
    | Except.ok r =>
      if r.status_code != 200 then
        Except.error (s1, previewDownloadErrorMsg r.status_code)
      else
        match env.write_temp with
        | Except.error m => Except.error (s1, m)
        | Except.ok tmpName =>
          let s2 := { s1 with current_file := some tmpName }
          match env.music_load with
          | Except.error m => Except.error (s2, m)
          | Except.ok _ =>
            match env.music_play with
            | Except.error m => Except.error (s2, m)
            | Except.ok _ => Except.ok { s2 with is_playing := true }

/-- The whole worker of play_from_url (main.py lines 109-129): the except
branch swallows every exception, records is_playing as false, and invokes the
on_error callback with the exception description when one was supplied. The
returned list is the sequence of callback invocations. The worker always
returns normally, so no exception propagates out of it. -/
def play_worker (env : PlayEnv) (s : PlayerState) (has_on_error : Bool) :
    PlayerState × List String :=
  match play_worker_body env s with
  | Except.ok s1 => (s1, [])
  | Except.error (s1, msg) =>
      ({ s1 with is_playing := false }, if has_on_error then [msg] else [])

/-- The external_urls sub-object of a track or artist JSON item. -/
structure ExternalUrls where
  spotify : Option String
deriving DecidableEq, Repr

/-- A track JSON object, with each field optional as in a partially missing
API response. -/
structure TrackObj where
  name : Option String
  external_urls : Option ExternalUrls
  preview_url : Option String
deriving DecidableEq, Repr

/-- t.get("external_urls", \x7b\x7d).get("spotify", "") of main.py line 331. -/
def externalSpotifyUrl (e : Option ExternalUrls) : String :=
  match e with
  | none => ""
  | some x => x.spotify.getD ""

/-- The playback action button of a track row: its text, whether it was created
with state="disabled", and the preview URL its command plays (none when the
button has no play command). -/
structure PlayButton where
  text : String
  disabled : Bool
  command_url : Option String
deriving DecidableEq, Repr

/-- The play-button construction of main.py lines 344-348: an enabled Preview
button wired to the preview URL when the value is truthy, otherwise a disabled
No Preview button. -/
def mk_play_button (preview : Option String) : PlayButton :=
  if strTruthy preview then
    { text := "▶ Preview", disabled := false, command_url := preview }
  else
    { text := "No Preview", disabled := true, command_url := none }

/-- One rendered track row of _populate_tracks (main.py lines 329-349). -/
structure TrackRow where
  label : String
  open_url : String
  play_button : PlayButton
deriving DecidableEq, Repr

/-- The row _populate_tracks builds for the track at 1-based position i. -/
def track_row (i : Nat) (t : TrackObj) : TrackRow :=
  { label := toString i ++ ". " ++ t.name.getD "Unknown",
    open_url := externalSpotifyUrl t.external_urls,
    play_button := mk_play_button t.preview_url }

/-- The content _populate_tracks leaves in the list frame. -/
inductive TracksRender where
  | noTracks
  | rows (rs : List TrackRow)
deriving DecidableEq, Repr

/-- _populate_tracks of main.py lines 321-349: after clearing, either the
no-tracks label or one row per track in order. -/
def populate_tracks (tracks : List TrackObj) : TracksRender :=
  if tracks.isEmpty then TracksRender.noTracks
  else TracksRender.rows (tracks.mapIdx (fun i t => track_row (i + 1) t))

/-- The truncation the top-tracks worker applies before rendering: main.py
line 313 takes the slice [:10] of the response list. -/
def top_tracks_for_render (tracks : List TrackObj) : List TrackObj :=
  tracks.take 10

/-- The followers sub-object of an artist JSON item. -/
structure FollowersObj where
  total : Option Nat
deriving DecidableEq, Repr

/-- An artist JSON object, with each field optional as in a partially missing
API response. -/
structure ArtistObj where
  name : Option String
  followers : Option FollowersObj
  genres : Option (List String)
deriving DecidableEq, Repr

/-- a.get("name", "Unknown") of main.py line 253. -/
def artistDisplayName (a : ArtistObj) : String := a.name.getD "Unknown"

/-- a.get("followers", \x7b\x7d).get("total", 0) of main.py line 254. -/
def artistFollowersTotal (a : ArtistObj) : Nat :=
  match a.followers with
  | none => 0
  | some f => f.total.getD 0

/-- ", ".join(gs[:3]): the first at most 3 genres joined by a comma-space. -/
def genresJoined (gs : List String) : String :=
  String.intercalate ", " (gs.take 3)

/-- The genres text of main.py line 255: the join of the first 3 genres, with
the Python or-fallback to "N/A" when the join is empty. -/
def artistGenresText (a : ArtistObj) : String :=
  let j := genresJoined (a.genres.getD [])
  if j = "" then "N/A" else j

/-- The info label text of an artist row (main.py line 261). -/
def artist_info_text (a : ArtistObj) : String :=
  artistDisplayName a ++ "  ·  " ++ toString (artistFollowersTotal a) ++
    " followers  ·  " ++ artistGenresText a

/-- A widget placed in the results region by _render_artist_choices: a plain
label, or a selectable artist row (a frame with an info label and an Open
button). -/
inductive ArtistsWidget where
  | label (text : String)
  | row (info : String)
deriving DecidableEq, Repr

/-- Whether a widget is a selectable artist row. -/
def isSelectableRow : ArtistsWidget → Bool
  | ArtistsWidget.row _ => true
  | _ => false

/-- Whether a widget is the no-artists indicator label. -/
def isNoArtistsLabel : ArtistsWidget → Bool
  | ArtistsWidget.label t => t == "No artists found."
  | _ => false

/-- _render_artist_choices of main.py lines 244-265: the region is cleared
first, so the returned list is the entire content of the region afterwards:
for an empty result the single No-artists label, otherwise a header label
followed by one selectable row per artist in input order. -/
def render_artist_choices (artists : List ArtistObj) : List ArtistsWidget :=
  if artists.isEmpty then [ArtistsWidget.label "No artists found."]
  else
    ArtistsWidget.label "Select an artist:" ::
      artists.map (fun a => ArtistsWidget.row (artist_info_text a))

/-- C1: for every configuration in which the client identifier or the client
secret is missing or empty, get_token fails with the configuration error and
no HTTP POST to the token endpoint is issued, whatever the endpoint would have
answered. -/
theorem get_token_missing_credentials (cfg : Config) (resp : TokenResponse)
    (h : strTruthy cfg.CLIENT_ID = false ∨ strTruthy cfg.CLIENT_SECRET = false) :
    get_token cfg resp = (Except.error PyError.configError, false) := by
  rcases h with h | h <;> simp [get_token, h]

theorem get_token_missing_credentials_witness :
    get_token { CLIENT_ID := none, CLIENT_SECRET := some "secret" }
        { status_code := 200, text := "", json := [("access_token", "tok")] }
      = (Except.error PyError.configError, false) :=
  get_token_missing_credentials _ _ (Or.inl rfl)

/-- C2: with both credentials present, a non-200 token response makes
get_token fail with the auth error carrying exactly the response status code
and the response body text, after the POST was issued; a 200 response whose
JSON body holds an access_token makes it return that token string. -/
theorem get_token_status_behavior (cfg : Config) (resp : TokenResponse)
    (hid : strTruthy cfg.CLIENT_ID = true) (hsec : strTruthy cfg.CLIENT_SECRET = true) :
    (resp.status_code ≠ 200 →
      get_token cfg resp
        = (Except.error (PyError.authError resp.status_code resp.text), true))
    ∧ (∀ t, resp.status_code = 200 → jsonLookup resp.json "access_token" = some t →
      get_token cfg resp = (Except.ok t, true)) := by
  constructor
  · intro h
    simp [get_token, hid, hsec, h]
  · intro t h200 hfind
    simp [get_token, hid, hsec, h200, hfind]

theorem get_token_status_behavior_witness :
    get_token { CLIENT_ID := some "id", CLIENT_SECRET := some "secret" }
        { status_code := 503, text := "unavailable", json := [] }
      = (Except.error (PyError.authError 503 "unavailable"), true)
    ∧ get_token { CLIENT_ID := some "id", CLIENT_SECRET := some "secret" }
        { status_code := 200, text := "", json := [("access_token", "tok")] }
      = (Except.ok "tok", true) :=
  ⟨(get_token_status_behavior _ _ (by decide) (by decide)).1 (by decide),
   (get_token_status_behavior _ _ (by decide) (by decide)).2 "tok" rfl (by decide)⟩

/-- C9: a 200 token response whose JSON body lacks the access_token key makes
get_token fail with the unguarded key lookup error, not the auth error
reserved for non-success statuses, and only after the POST was issued. -/
theorem get_token_missing_access_token_key :
    get_token { CLIENT_ID := some "id", CLIENT_SECRET := some "secret" }
        { status_code := 200, text := "\x7b\x7d", json := [] }
      = (Except.error (PyError.keyError "access_token"), true) := rfl

/-- C3 counterexample: the albums fetch the application issues (main.py line
367 passes limit=12 to get_artist_albums) does not request a page limit of 10
items. -/
theorem app_albums_limit_counterexample :
    app_albums_fetch_params.limit = 12 ∧ app_albums_fetch_params.limit ≠ 10 := by
  decide

/-- C3 amended: the albums fetch issued by the application requests the union
of album/single/compilation release types with market fixed to "US" and a page
limit of 12 items (the helper function defaults to a limit of 10, but the
application call site overrides it with 12). -/
theorem app_albums_params_amended :
    app_albums_fetch_params.include_groups = "album,single,compilation"
    ∧ app_albums_fetch_params.market = "US"
    ∧ app_albums_fetch_params.limit = 12
    ∧ get_artist_albums_params albums_limit_default
        = { include_groups := "album,single,compilation", limit := 10, market := "US" } :=
  ⟨rfl, rfl, rfl, rfl⟩

/-- C4: every error raised inside the play worker body is swallowed at the
worker boundary rather than propagated to the caller of play_from_url: the
worker records is_playing as false and, when a failure callback was supplied,
invokes it exactly once with the exception description (and never invokes it
otherwise); play_worker is a total function returning normally in all cases,
so no such error terminates the process. -/
theorem play_worker_error_handling (env : PlayEnv) (s s1 : PlayerState) (msg : String)
    (h : play_worker_body env s = Except.error (s1, msg)) :
    play_worker env s true = ({ s1 with is_playing := false }, [msg])
    ∧ play_worker env s false = ({ s1 with is_playing := false }, []) := by
  constructor <;> simp [play_worker, h]

theorem play_worker_error_handling_witness :
    play_worker
        { mixer_init := Except.ok (), download := Except.error "boom",
          write_temp := Except.ok "tmp.mp3", music_load := Except.ok (),
          music_play := Except.ok () }
        PreviewPlayer.new true
      = ({ initialized := true, current_file := none, is_playing := false }, ["boom"])
    ∧ play_worker
        { mixer_init := Except.ok (), download := Except.error "boom",
          write_temp := Except.ok "tmp.mp3", music_load := Except.ok (),
          music_play := Except.ok () }
        PreviewPlayer.new false
      = ({ initialized := true, current_file := none, is_playing := false }, []) :=
  play_worker_error_handling
    { mixer_init := Except.ok (), download := Except.error "boom",
      write_temp := Except.ok "tmp.mp3", music_load := Except.ok (),
      music_play := Except.ok () }
    PreviewPlayer.new
    { initialized := true, current_file := none, is_playing := false } "boom" rfl

/-- C5: stop never changes current_file or initialized in any state, is a
complete no-op on an uninitialized engine, and is idempotent; being a total
function, it never raises. -/
theorem stop_noop_idempotent (s : PlayerState) :
    (PlayerState.stop s).current_file = s.current_file
    ∧ (PlayerState.stop s).initialized = s.initialized
    ∧ (s.initialized = false → PlayerState.stop s = s)
    ∧ PlayerState.stop (PlayerState.stop s) = PlayerState.stop s := by
  by_cases h : s.initialized <;> simp [PlayerState.stop, h]

theorem stop_noop_idempotent_witness :
    PlayerState.stop { initialized := false, current_file := none, is_playing := false }
      = { initialized := false, current_file := none, is_playing := false } :=
  (stop_noop_idempotent _).2.2.1 rfl

/-- C6: the top-tracks worker truncates the response list to at most its first
10 elements before rendering, preserving response order (the truncation is an
initial segment of the response), leaves lists of 10 or fewer unchanged, and
what is rendered is one row per kept track. -/
theorem top_tracks_truncation (ts : List TrackObj) :
    (top_tracks_for_render ts).length ≤ 10
    ∧ (∃ rest, top_tracks_for_render ts ++ rest = ts)
    ∧ (ts.length ≤ 10 → top_tracks_for_render ts = ts)
    ∧ (ts ≠ [] → ∃ rs, populate_tracks (top_tracks_for_render ts) = TracksRender.rows rs
        ∧ rs.length = (top_tracks_for_render ts).length) := by
  refine ⟨?_, ⟨ts.drop 10, List.take_append_drop 10 ts⟩, ?_, ?_⟩
  · simp [top_tracks_for_render]
  · intro h
    simp [top_tracks_for_render, List.take_of_length_le h]
  · intro h
    cases ts with
    | nil => exact absurd rfl h
    | cons t l =>
        refine ⟨(top_tracks_for_render (t :: l)).mapIdx (fun i x => track_row (i + 1) x),
          ?_, ?_⟩
        · simp [populate_tracks, top_tracks_for_render]
        · simp

theorem top_tracks_truncation_witness :
    top_tracks_for_render
        [{ name := some "Hello", external_urls := none, preview_url := none },
         { name := some "Skyfall", external_urls := none, preview_url := some "u" }]
      = [{ name := some "Hello", external_urls := none, preview_url := none },
         { name := some "Skyfall", external_urls := none, preview_url := some "u" }] :=
  (top_tracks_truncation _).2.2.1 (by decide)

/-- C7 counterexample: a track whose preview_url is present but equal to the
empty string has a preview_url, yet its rendered playback control is disabled,
contrary to the claim that every track with a preview_url gets an enabled
control. -/
theorem preview_button_counterexample :
    ({ name := some "Song", external_urls := none, preview_url := some "" } :
        TrackObj).preview_url ≠ none
    ∧ (track_row 1
        { name := some "Song", external_urls := none, preview_url := some "" }
       ).play_button.disabled = true :=
  ⟨by simp, rfl⟩

/-- C7 amended: in every rendered track row the playback control exists; it is
the disabled No-Preview button exactly when preview_url is absent or the empty
string (falsy in the source condition), and for every present non-empty
preview_url it is the enabled Preview button wired to play that URL. -/
theorem preview_button_amended (i : Nat) (t : TrackObj) :
    ((t.preview_url = none ∨ t.preview_url = some "") →
      (track_row i t).play_button
        = { text := "No Preview", disabled := true, command_url := none })
    ∧ (∀ u, t.preview_url = some u → u ≠ "" →
      (track_row i t).play_button
        = { text := "▶ Preview", disabled := false, command_url := some u }) := by
  constructor
  · rintro (h | h) <;> simp [track_row, mk_play_button, strTruthy, h]
  · intro u hu hne
    simp [track_row, mk_play_button, strTruthy, hu, hne]

theorem preview_button_amended_witness :
    (track_row 1
        { name := some "Hello", external_urls := none, preview_url := some "http://p.mp3" }
      ).play_button
      = { text := "▶ Preview", disabled := false, command_url := some "http://p.mp3" }
    ∧ (track_row 2
        { name := some "Silent", external_urls := none, preview_url := none }
      ).play_button
      = { text := "No Preview", disabled := true, command_url := none } :=
  ⟨(preview_button_amended 1 _).2 "http://p.mp3" rfl (by decide),
   (preview_button_amended 2 _).1 (Or.inl rfl)⟩

theorem filter_selectable_map_row (l : List ArtistObj) :
    (l.map (fun a => ArtistsWidget.row (artist_info_text a))).filter isSelectableRow
      = l.map (fun a => ArtistsWidget.row (artist_info_text a)) := by
  induction l with
  | nil => rfl
  | cons a l ih => simp [List.filter, isSelectableRow, ih]

theorem countP_noartists_map_row (l : List ArtistObj) :
    (l.map (fun a => ArtistsWidget.row (artist_info_text a))).countP isNoArtistsLabel
      = 0 := by
  induction l with
  | nil => rfl
  | cons a l ih => simp [List.countP_cons, isNoArtistsLabel, ih]

/-- C8: rendering an empty artist search result clears the region to exactly
one no-artists indicator and zero selectable rows; rendering n artists yields
exactly n selectable rows in input order, whose info text shows the follower
count and the join of the genres; the join uses at most the first 3 genres
(appending further genres past 3 never changes it). -/
theorem render_artist_choices_spec (artists : List ArtistObj) :
    (artists = [] →
      (render_artist_choices artists).countP isNoArtistsLabel = 1
      ∧ (render_artist_choices artists).filter isSelectableRow = [])
    ∧ (artists ≠ [] →
      (render_artist_choices artists).countP isNoArtistsLabel = 0
      ∧ (render_artist_choices artists).filter isSelectableRow
          = artists.map (fun a => ArtistsWidget.row (artist_info_text a))
      ∧ ((render_artist_choices artists).filter isSelectableRow).length
          = artists.length)
    ∧ (∀ xs ys : List String, xs.length = 3 → genresJoined (xs ++ ys) = genresJoined xs) := by
  refine ⟨?_, ?_, ?_⟩
  · intro h
    subst h
    exact ⟨rfl, rfl⟩
  · intro h
    cases artists with
    | nil => exact absurd rfl h
    | cons a l =>
        have hrender : render_artist_choices (a :: l)
            = ArtistsWidget.label "Select an artist:" ::
                (a :: l).map (fun x => ArtistsWidget.row (artist_info_text x)) := by
          simp [render_artist_choices]
        refine ⟨?_, ?_, ?_⟩
        · rw [hrender]
          simp [List.countP_cons, isNoArtistsLabel, countP_noartists_map_row]
        · rw [hrender]
          simp [List.filter, isNoArtistsLabel, isSelectableRow,
            filter_selectable_map_row]
        · rw [hrender]
          simp [List.filter, isNoArtistsLabel, isSelectableRow,
            filter_selectable_map_row]
  · intro xs ys h
    have h1 : (xs ++ ys).take 3 = xs := by
      rw [← h]
      exact List.take_left xs ys
    have h2 : xs.take 3 = xs := List.take_of_length_le (le_of_eq h)
    simp only [genresJoined, h1, h2]

theorem render_artist_choices_spec_witness :
    ((render_artist_choices []).countP isNoArtistsLabel = 1
      ∧ (render_artist_choices []).filter isSelectableRow = [])
    ∧ ((render_artist_choices
          [{ name := some "Adele", followers := some { total := some 50000000 },
             genres := some ["pop", "soul"] },
           { name := none, followers := none, genres := none }]
        ).filter isSelectableRow).length = 2
    ∧ genresJoined (["pop", "soul", "jazz"] ++ ["rock"])
        = genresJoined ["pop", "soul", "jazz"] :=
  ⟨(render_artist_choices_spec []).1 rfl,
   ((render_artist_choices_spec _).2.1 (by simp)).2.2,
   (render_artist_choices_spec []).2.2 ["pop", "soul", "jazz"] ["rock"] rfl⟩

/-- C10: artist-row rendering is total over partially missing artist objects,
with the source defaults: a missing name renders as "Unknown", a missing
followers object or total renders as 0, a missing or empty genres list renders
as "N/A", and the rendered info text is exactly the composition of these three
total functions, so no missing field can make rendering raise. -/
theorem artist_row_defaults (a : ArtistObj) :
    (a.name = none → artistDisplayName a = "Unknown")
    ∧ (a.followers = none → artistFollowersTotal a = 0)
    ∧ (∀ f, a.followers = some f → f.total = none → artistFollowersTotal a = 0)
    ∧ (a.genres = none → artistGenresText a = "N/A")
    ∧ (a.genres = some [] → artistGenresText a = "N/A")
    ∧ artist_info_text a
        = artistDisplayName a ++ "  ·  " ++ toString (artistFollowersTotal a)
            ++ " followers  ·  " ++ artistGenresText a := by
  refine ⟨?_, ?_, ?_, ?_, ?_, rfl⟩
  · intro h; simp [artistDisplayName, h]
  · intro h; simp [artistFollowersTotal, h]
  · intro f hf ht; simp [artistFollowersTotal, hf, ht]
  · intro h; simp [artistGenresText, genresJoined, h, String.intercalate]
  · intro h; simp [artistGenresText, genresJoined, h, String.intercalate]

theorem artist_row_defaults_witness :
    artistDisplayName { name := none, followers := none, genres := none } = "Unknown"
    ∧ artistFollowersTotal { name := none, followers := none, genres := none } = 0
    ∧ artistFollowersTotal
        { name := some "X", followers := some { total := none }, genres := none } = 0
    ∧ artistGenresText { name := none, followers := none, genres := some [] } = "N/A" :=
  ⟨(artist_row_defaults _).1 rfl,
   (artist_row_defaults _).2.1 rfl,
   (artist_row_defaults _).2.2.1 { total := none } rfl rfl,
   (artist_row_defaults _).2.2.2.2.1 rfl⟩
